import Mathlib

/-!
Verification of `src/cloud/amazon/transcoder_preset.py`, an Ansible module that
manages AWS ElasticTranscoder presets.  The Python functions `get_preset_id`,
`delete_preset_by_id`, `create_preset` and `delete_preset`, together with the
`state`-dispatch in `main`, are embedded as pure Lean functions.  Interaction
with the remote service and the filesystem is made explicit: an `Env` value
records what the service and the filesystem would answer, and every reconciler
returns the ordered list of remote API calls it performed together with its
outcome (a returned result dictionary, a `module.fail_json` abort, or an
uncaught Python exception).
-/

set_option autoImplicit false

namespace TranscoderPreset

/-- Remote preset entry as reported by the paginated listing API.  Only the
fields the module reads (`Id`, `Arn`, `Name`) are modelled. -/
structure Preset where
  Id : String
  Arn : String
  Name : String
deriving DecidableEq, Repr

/-- One page yielded by the `list_presets` paginator: an optional `Presets`
list (the code guards with `if 'Presets' in page.keys()`) and an optional
`NextPageToken` continuation token. -/
structure Page where
  Presets : Option (List Preset)
  NextPageToken : Option String
deriving DecidableEq, Repr

/-- Keyword arguments assembled in the `params` dict of `create_preset` and
passed to `client.create_preset(**params)`.  The three encoding blocks are
`Option`s because the corresponding dict key is set only when it is present in
the loaded template (lines 219-226); their contents are opaque, only presence
and `len` matter to the module. -/
structure CreateParams where
  Name : String
  Description : Option String
  Container : String
  Video : Option (List String)
  Audio : Option (List String)
  Thumbnails : Option (List String)
deriving DecidableEq, Repr

/-- Remote API calls the module can issue.  `listPage` is the read-only page
fetch of the paginator; `createPreset` and `deletePreset` are the two mutating
calls (`client.create_preset`, `client.delete_preset`). -/
inductive ApiCall where
  | listPage : ApiCall
  | createPreset : CreateParams → ApiCall
  | deletePreset : String → ApiCall
deriving DecidableEq, Repr

end TranscoderPreset

namespace TranscoderPreset

/-- Result dictionary built by `create_preset` / `delete_preset`.  All four
string fields are initialised to `''`; the `changed` key is absent (`none`)
until the code assigns it, and the code only ever assigns the string literals
`'true'` and `'false'` (lines 243, 265, 280). -/
structure TResult where
  name : String
  id : String
  arn : String
  msg : String
  changed : Option String
deriving DecidableEq, Repr

/-- Outcome of one invocation: a normal return of the result dict (passed to
`module.exit_json`), a `module.fail_json(msg=...)` abort, or an uncaught
Python exception (e.g. `KeyError`, `ValueError`) that crashes the module. -/
inductive Outcome where
  | ok : TResult → Outcome
  | failJson : String → Outcome
  | crash : String → Outcome
deriving DecidableEq, Repr

/-- Parsed JSON template document: presence and contents of the three
top-level keys the module extracts (`Video`, `Audio`, `Thumbnails`). -/
structure Doc where
  Video : Option (List String)
  Audio : Option (List String)
  Thumbnails : Option (List String)
deriving DecidableEq, Repr

/-- Result of resolving and reading the `preset_document` path:
`noFile` models `os.path.isfile` returning false, `ioError` an `IOError`
raised by `open`, `badJson` a `ValueError` raised by `json.load` on malformed
content (which the code's `except IOError` clause does not catch), and `ok`
a successfully parsed document. -/
inductive DocRead where
  | noFile : DocRead
  | ioError : String → DocRead
  | badJson : String → DocRead
  | ok : Doc → DocRead
deriving DecidableEq, Repr

/-- Module parameters (`module.params`) plus the `check_mode` flag of the
`AnsibleModule` object.  Optional string parameters are `none` when not
supplied; the code tests them with Python truthiness, so `some ""` also
counts as missing. -/
structure Params where
  name : Option String
  description : Option String
  container : Option String
  state : String
  recreate : Bool
  preset_document : Option String
  check_mode : Bool
deriving DecidableEq, Repr

/-- Environment: what the remote service and filesystem answer.  `pages` is
the sequence of pages the `list_presets` paginator yields (in the ascending
order requested by `{'Ascending': 'true'}`), `deleteReply` and `createReply`
are the replies of `client.delete_preset` / `client.create_preset`
(`Except.error e` models a `botocore` `ClientError` with text `e`), and
`docRead` is what reading the `preset_document` path yields. -/
structure Env where
  pages : List Page
  deleteReply : Except String Unit
  createReply : Except String Preset
  docRead : DocRead
deriving Repr

/-- Python truthiness of an optional string parameter: absent and `''` are
falsy, every other string is truthy. -/
def truthy : Option String → Bool
  | none => false
  | some s => !(s == "")

/-- Embedding of `get_preset_id` (lines 135-154): walk the pages the
paginator yields, return the `(Id, Arn)` of the first entry whose `Name`
equals `preset_name` exactly; when a page without a match carries no
`NextPageToken` the loop breaks; when the pages are exhausted or the loop
breaks the function returns the `(None, None)` sentinel, modelled as `none`.
The first component is the trace of API calls made (one `listPage` per page
fetched). -/
def get_preset_id : List Page → String → List ApiCall × Option (String × String)
  | [], _ => ([], none)
  | p :: rest, pname =>
    match (p.Presets.getD []).find? (fun q => q.Name == pname) with
    | some q => ([ApiCall.listPage], some (q.Id, q.Arn))
    | none =>
      match p.NextPageToken with
      | none => ([ApiCall.listPage], none)
      | some _ =>
        let r := get_preset_id rest pname
        (ApiCall.listPage :: r.1, r.2)

/-- Embedding of `delete_preset_by_id` (lines 157-162): issue the delete call;
on a `ClientError` the module aborts with the formatted message.  Returns the
fail message when the call failed, `none` on success (the Python function
returns nothing). -/
def delete_preset_by_id (env : Env) (pname pid : String) : Option String :=
  match env.deleteReply with
  | Except.ok _ => none
  | Except.error e =>
    some ("Failed to delete preset " ++ pname ++ "/" ++ pid ++ ": " ++ e)

/-- Embedding of lines 233-245 of `create_preset`: unless in check mode,
issue `client.create_preset(**params)`; a `ClientError` aborts with
`"Invalid preset settings: ..."`, success copies `Name`/`Id`/`Arn` of the
created preset into the result.  In check mode no call is made and the
result's `name`/`id`/`arn` keep their initial `''`.  Either way `msg` and
`changed` are set to `'Preset created successfully'` / `'true'`. -/
def create_call (env : Env) (m : Params) (ps : CreateParams) (tr : List ApiCall) :
    List ApiCall × Outcome :=
  if m.check_mode then
    (tr, Outcome.ok { name := "", id := "", arn := "",
                      msg := "Preset created successfully", changed := some "true" })
  else
    match env.createReply with
    | Except.ok created =>
      (tr ++ [ApiCall.createPreset ps],
       Outcome.ok { name := created.Name, id := created.Id, arn := created.Arn,
                    msg := "Preset created successfully", changed := some "true" })
    | Except.error e =>
      (tr ++ [ApiCall.createPreset ps], Outcome.failJson ("Invalid preset settings: " ++ e))

/-- Embedding of lines 199-200 of `create_preset`: the `Description` key is
set in `params` only when the parameter is truthy. -/
def description_param (m : Params) : Option String :=
  if truthy m.description then some (m.description.getD "") else none

/-- Embedding of lines 207-217 of `create_preset`: when a truthy
`preset_document` path is given, resolve and parse it — a non-file path and an
`IOError` abort via `fail_json`, while malformed content raises a `ValueError`
that the `except IOError` clause does not catch; without a path the template
stays the empty dict. -/
def load_template (env : Env) (m : Params) : Except Outcome Doc :=
  if truthy m.preset_document then
    match env.docRead with
    | DocRead.noFile =>
      Except.error (Outcome.failJson
        ("Wrong path for preset_document: " ++ m.preset_document.getD ""))
    | DocRead.ioError e =>
      Except.error (Outcome.failJson ("Can't open video_template file - " ++ e))
    | DocRead.badJson e => Except.error (Outcome.crash ("ValueError: " ++ e))
    | DocRead.ok d => Except.ok d
  else Except.ok { Video := none, Audio := none, Thumbnails := none }

/-- Keyword arguments assembled in lines 176-226: name, optional description,
container, and the `Video`/`Audio`/`Thumbnails` keys, each set only when
present in the loaded template. -/
def assembled_params (m : Params) (pname : String) (tmpl : Doc) : CreateParams :=
  { Name := pname, Description := description_param m, Container := m.container.getD "",
    Video := tmpl.Video, Audio := tmpl.Audio, Thumbnails := tmpl.Thumbnails }

/-- Embedding of lines 199-245 of `create_preset` (the part reached after the
lookup / recreate branching): optional description, required container,
loading of the `preset_document`, extraction of the `Video`/`Audio`/
`Thumbnails` keys into `params` (each set only when present in the template),
the emptiness validation of lines 228-231 — which, exactly as in Python,
raises `KeyError` as soon as `len(params[k])` is evaluated for a key that was
never set, with `and` short-circuiting left to right — and finally the create
call. -/
def create_preset_body (env : Env) (m : Params) (pname : String) (tr : List ApiCall) :
    List ApiCall × Outcome :=
  if truthy m.container then
    match load_template env m with
    | Except.error o => (tr, o)
    | Except.ok tmpl =>
      match tmpl.Video with
      | none => (tr, Outcome.crash "KeyError: Video")
      | some v =>
        if v.length = 0 then
          match tmpl.Audio with
          | none => (tr, Outcome.crash "KeyError: Audio")
          | some a =>
            if a.length = 0 then
              match tmpl.Thumbnails with
              | none => (tr, Outcome.crash "KeyError: Thumbnails")
              | some t =>
                if t.length = 0 then
                  (tr, Outcome.failJson "No specs provided for Video, Audio, or Thumbnails. ")
                else create_call env m (assembled_params m pname tmpl) tr
            else create_call env m (assembled_params m pname tmpl) tr
        else create_call env m (assembled_params m pname tmpl) tr
  else (tr, Outcome.failJson "Missing required argument: container")

/-- Embedding of `create_preset` (lines 165-245): require a truthy `name`,
locate an existing preset; if found and `recreate` is false return the
"already exists" result (no `changed` key is set on this path); if found and
`recreate` is true delete it by id (aborting on failure) and continue with
the creation body; if not found continue with the creation body directly. -/
def create_preset (env : Env) (m : Params) : List ApiCall × Outcome :=
  if truthy m.name then
    match (get_preset_id env.pages (m.name.getD "")).2 with
    | some (pid, parn) =>
      if m.recreate then
        match delete_preset_by_id env (m.name.getD "") pid with
        | none =>
          create_preset_body env m (m.name.getD "")
            ((get_preset_id env.pages (m.name.getD "")).1 ++ [ApiCall.deletePreset pid])
        | some msg =>
          ((get_preset_id env.pages (m.name.getD "")).1 ++ [ApiCall.deletePreset pid],
           Outcome.failJson msg)
      else
        ((get_preset_id env.pages (m.name.getD "")).1,
         Outcome.ok { name := m.name.getD "", id := pid, arn := parn,
                      msg := "Preset already exists", changed := none })
    | none =>
      create_preset_body env m (m.name.getD "") (get_preset_id env.pages (m.name.getD "")).1
  else ([], Outcome.failJson "Missing required argument: name")

/-- Embedding of `delete_preset` (lines 247-284): require a truthy `name`,
locate the preset; `msg`/`changed` are pre-set to
`'Preset deleted successfully'`/`'true'`; if found, copy id/arn and (outside
check mode) issue the delete call, aborting on `ClientError`; if not found,
the not-found message and `changed = 'false'` are — exactly as in the code —
only assigned outside check mode (lines 277-280). -/
def delete_preset (env : Env) (m : Params) : List ApiCall × Outcome :=
  if truthy m.name then
    match (get_preset_id env.pages (m.name.getD "")).2 with
    | some (pid, parn) =>
      if m.check_mode then
        ((get_preset_id env.pages (m.name.getD "")).1,
         Outcome.ok { name := m.name.getD "", id := pid, arn := parn,
                      msg := "Preset deleted successfully", changed := some "true" })
      else
        match env.deleteReply with
        | Except.ok _ =>
          ((get_preset_id env.pages (m.name.getD "")).1 ++ [ApiCall.deletePreset pid],
           Outcome.ok { name := m.name.getD "", id := pid, arn := parn,
                        msg := "Preset deleted successfully", changed := some "true" })
        | Except.error e =>
          ((get_preset_id env.pages (m.name.getD "")).1 ++ [ApiCall.deletePreset pid],
           Outcome.failJson ("Failed to delete preset " ++ m.name.getD "" ++ ": " ++ e))
    | none =>
      if m.check_mode then
        ((get_preset_id env.pages (m.name.getD "")).1,
         Outcome.ok { name := m.name.getD "", id := "", arn := "",
                      msg := "Preset deleted successfully", changed := some "true" })
      else
        ((get_preset_id env.pages (m.name.getD "")).1,
         Outcome.ok { name := m.name.getD "", id := "", arn := "",
                      msg := "Preset not found", changed := some "false" })
  else ([], Outcome.failJson "Missing required argument: name")

/-- Embedding of the `invocations` dispatch in `main` (lines 331-335):
`state = 'absent'` runs `delete_preset`, `state = 'present'` (the default and
the only other value the argument spec admits) runs `create_preset`. -/
def invoke (env : Env) (m : Params) : List ApiCall × Outcome :=
  if m.state = "absent" then delete_preset env m else create_preset env m

/-- Changed flag as observed by the caller after `module.exit_json`: Ansible's
`exit_json` inserts `changed = False` when the key is absent, and the module
itself only ever stores the string markers `'true'` / `'false'`, read here as
the corresponding booleans. -/
def exit_changed (r : TResult) : Bool :=
  match r.changed with
  | none => false
  | some s => s == "true"

/-- Mutating API calls are exactly the create and delete calls. -/
def mutating : ApiCall → Bool
  | ApiCall.listPage => false
  | ApiCall.createPreset _ => true
  | ApiCall.deletePreset _ => true

/-- Predicate selecting delete calls. -/
def isDelete : ApiCall → Bool
  | ApiCall.deletePreset _ => true
  | _ => false

/-- Number of delete calls in a trace. -/
def countDeletes (tr : List ApiCall) : Nat := (tr.filter isDelete).length

/-- All preset entries of a page list, in walk order. -/
def allPresets : List Page → List Preset
  | [] => []
  | p :: rest => p.Presets.getD [] ++ allPresets rest

/-- Specification-level lookup: the `(Id, Arn)` of the first entry, in page
order, whose name equals `pname` exactly (case-sensitively). -/
def firstMatch (pname : String) (pages : List Page) : Option (String × String) :=
  ((allPresets pages).find? (fun q => q.Name == pname)).map (fun q => (q.Id, q.Arn))

/-- Well-formed pagination: every page except the last carries a continuation
token (the service only omits `NextPageToken` on the final page). -/
def wellPaginated : List Page → Bool
  | [] => true
  | [_] => true
  | p :: rest => p.NextPageToken.isSome && wellPaginated rest

/-- Effect of a successful `delete_preset(Id=i)` on the catalog: the preset
with that id disappears from every subsequently listed page. -/
def deleteFromPages (pages : List Page) (i : String) : List Page :=
  pages.map (fun p => { p with Presets := p.Presets.map (List.filter (fun q => !(q.Id == i))) })

/-- Effect of one API call on the catalog: only deletes change it. -/
def applyCall (pages : List Page) : ApiCall → List Page
  | ApiCall.deletePreset i => deleteFromPages pages i
  | _ => pages

/-- Effect of a whole trace of API calls on the catalog. -/
def applyTrace (pages : List Page) (tr : List ApiCall) : List Page :=
  tr.foldl applyCall pages

/-- Every call made by the locator is a read-only page fetch. -/
theorem get_preset_id_trace_all (pages : List Page) (pname : String) :
    ∀ c ∈ (get_preset_id pages pname).1, c = ApiCall.listPage := by
  induction pages with
  | nil => intro c hc; simp [get_preset_id] at hc
  | cons p rest ih =>
    intro c hc
    cases hf : (p.Presets.getD []).find? (fun q => q.Name == pname) with
    | some q =>
      simp only [get_preset_id, hf] at hc
      simpa using hc
    | none =>
      cases ht : p.NextPageToken with
      | none =>
        simp only [get_preset_id, hf, ht] at hc
        simpa using hc
      | some t =>
        simp only [get_preset_id, hf, ht, List.mem_cons] at hc
        rcases hc with hc | hc
        · exact hc
        · exact ih c hc

/-- A list whose members are all `listPage` has no element selected by a
predicate that rejects `listPage`. -/
theorem filter_all_listPage (f : ApiCall → Bool) (hf : f ApiCall.listPage = false)
    (l : List ApiCall) (h : ∀ c ∈ l, c = ApiCall.listPage) : l.filter f = [] := by
  induction l with
  | nil => rfl
  | cons a l ih =>
    have ha : a = ApiCall.listPage := h a (by simp)
    subst ha
    rw [List.filter_cons_of_neg (by simp [hf])]
    exact ih (fun c hc => h c (by simp [hc]))

/-- In a well-paginated listing the tail is well paginated too. -/
theorem wellPaginated_tail {p : Page} {rest : List Page}
    (h : wellPaginated (p :: rest) = true) : wellPaginated rest = true := by
  cases rest with
  | nil => rfl
  | cons q r =>
    simp only [wellPaginated, Bool.and_eq_true] at h
    exact h.2

/-- The locator returns exactly the first name match of the walked catalog:
on well-formed pagination it agrees with a plain first-match search over the
concatenation of all pages. -/
theorem get_preset_id_eq_firstMatch (pages : List Page) (pname : String)
    (hw : wellPaginated pages = true) :
    (get_preset_id pages pname).2 = firstMatch pname pages := by
  induction pages with
  | nil => rfl
  | cons p rest ih =>
    cases hf : (p.Presets.getD []).find? (fun q => q.Name == pname) with
    | some q =>
      simp only [get_preset_id, hf, firstMatch, allPresets, List.find?_append, hf,
        Option.some_orElse]
      rfl
    | none =>
      cases ht : p.NextPageToken with
      | none =>
        cases rest with
        | nil =>
          simp [get_preset_id, hf, ht, firstMatch, allPresets]
        | cons p2 rest2 =>
          simp only [wellPaginated, Bool.and_eq_true, ht, Option.isSome_none] at hw
          exact absurd hw.1 (by simp)
      | some t =>
        have ihr := ih (wellPaginated_tail hw)
        simp only [get_preset_id, hf, ht, firstMatch, allPresets, List.find?_append, hf,
          Option.none_orElse]
        exact ihr

/-- A successful lookup names an entry actually present in the catalog, with
the matching name and the returned id and arn. -/
theorem get_preset_id_some_mem {pages : List Page} {pname i a : String}
    (h : (get_preset_id pages pname).2 = some (i, a)) :
    ∃ q ∈ allPresets pages, q.Name = pname ∧ q.Id = i ∧ q.Arn = a := by
  induction pages with
  | nil => simp [get_preset_id] at h
  | cons p rest ih =>
    cases hf : (p.Presets.getD []).find? (fun q => q.Name == pname) with
    | some q =>
      simp only [get_preset_id, hf, Option.some.injEq, Prod.mk.injEq] at h
      have hq : q ∈ p.Presets.getD [] := List.mem_of_find?_eq_some hf
      have hqn : (q.Name == pname) = true :=
        @List.find?_some _ (fun q => q.Name == pname) q _ hf
      exact ⟨q, by simp [allPresets, hq], by simpa using hqn, h.1, h.2⟩
    | none =>
      cases ht : p.NextPageToken with
      | none => simp [get_preset_id, hf, ht] at h
      | some t =>
        simp only [get_preset_id, hf, ht] at h
        obtain ⟨q, hq, hn, hi, ha⟩ := ih h
        exact ⟨q, by simp [allPresets, hq], hn, hi, ha⟩

/-- When no entry of the catalog bears the requested name the locator reports
the not-found sentinel (unconditionally, early break included). -/
theorem get_preset_id_none_of_no_match {pages : List Page} {pname : String}
    (h : ∀ q ∈ allPresets pages, ¬(q.Name = pname)) :
    (get_preset_id pages pname).2 = none := by
  induction pages with
  | nil => rfl
  | cons p rest ih =>
    have hf : (p.Presets.getD []).find? (fun q => q.Name == pname) = none := by
      rw [List.find?_eq_none]
      intro q hq
      simpa using h q (by simp [allPresets, hq])
    cases ht : p.NextPageToken with
    | none => simp [get_preset_id, hf, ht]
    | some t =>
      simp only [get_preset_id, hf, ht]
      exact ih (fun q hq => h q (by simp [allPresets, hq]))

/-- Deleting an id from the paged catalog filters it out of the flattened
entry list. -/
theorem allPresets_deleteFromPages (pages : List Page) (i : String) :
    allPresets (deleteFromPages pages i) =
      (allPresets pages).filter (fun q => !(q.Id == i)) := by
  induction pages with
  | nil => rfl
  | cons p rest ih =>
    simp only [deleteFromPages, List.map_cons, allPresets, List.filter_append] at *
    rw [ih]
    congr 1
    cases hp : p.Presets with
    | none => rfl
    | some l => rfl

/-- Read-only calls leave the catalog unchanged. -/
theorem applyTrace_all_listPage {pages : List Page} {l : List ApiCall}
    (h : ∀ c ∈ l, c = ApiCall.listPage) : applyTrace pages l = pages := by
  induction l generalizing pages with
  | nil => rfl
  | cons c l ih =>
    have hc : c = ApiCall.listPage := h c (by simp)
    subst hc
    simp only [applyTrace, List.foldl_cons] at *
    exact ih (fun c hc => h c (by simp [hc]))

/-- Trace discipline of the create call: it appends at most one
`createPreset` call to the trace it is given. -/
theorem create_call_trace (env : Env) (m : Params) (ps : CreateParams) (tr : List ApiCall) :
    (create_call env m ps tr).1 = tr ∨
      ∃ qs, (create_call env m ps tr).1 = tr ++ [ApiCall.createPreset qs] := by
  unfold create_call
  split
  · exact Or.inl rfl
  · cases env.createReply with
    | ok c => exact Or.inr ⟨ps, rfl⟩
    | error e => exact Or.inr ⟨ps, rfl⟩

/-- Trace discipline of the creation body: it appends at most one
`createPreset` call and in particular never issues a delete. -/
theorem create_preset_body_trace (env : Env) (m : Params) (pname : String)
    (tr : List ApiCall) :
    (create_preset_body env m pname tr).1 = tr ∨
      ∃ ps, (create_preset_body env m pname tr).1 = tr ++ [ApiCall.createPreset ps] := by
  unfold create_preset_body
  split
  · split
    · exact Or.inl rfl
    · split
      · exact Or.inl rfl
      · split
        · split
          · exact Or.inl rfl
          · split
            · split
              · exact Or.inl rfl
              · split
                · exact Or.inl rfl
                · exact create_call_trace env m _ tr
            · exact create_call_trace env m _ tr
        · exact create_call_trace env m _ tr
  · exact Or.inl rfl

/-- Document loading never produces a result dictionary when it fails: the
abort is a `fail_json` or an uncaught exception, never `Outcome.ok`. -/
theorem load_template_no_ok {env : Env} {m : Params} {o : Outcome} {r : TResult}
    (he : load_template env m = Except.error o) : o ≠ Outcome.ok r := by
  unfold load_template at he
  split at he
  · cases hdr : env.docRead <;> rw [hdr] at he <;> simp at he <;> subst he <;> simp
  · simp at he

/-- Outside check mode the create call always issues exactly one
`createPreset` call, whether the service accepts it or not. -/
theorem create_call_trace_nocheck {env : Env} {m : Params} (ps : CreateParams)
    (tr : List ApiCall) (hcm : m.check_mode = false) :
    (create_call env m ps tr).1 = tr ++ [ApiCall.createPreset ps] := by
  unfold create_call
  rw [hcm]
  simp only [Bool.false_eq_true, if_false]
  cases env.createReply <;> rfl

/-- The creation body returns a result (rather than aborting) outside check
mode only after a successful create call, which is then the single call it
appended. -/
theorem create_preset_body_ok_trace {env : Env} {m : Params} {pname : String}
    {tr : List ApiCall} {r : TResult}
    (hcm : m.check_mode = false)
    (h : (create_preset_body env m pname tr).2 = Outcome.ok r) :
    ∃ ps, (create_preset_body env m pname tr).1 = tr ++ [ApiCall.createPreset ps] := by
  by_cases hc : truthy m.container
  case neg => simp [create_preset_body, hc] at h
  case pos =>
  cases hl : load_template env m with
  | error o =>
    simp only [create_preset_body, hc, if_true, hl] at h
    exact absurd h (load_template_no_ok hl)
  | ok tmpl =>
    cases hv : tmpl.Video with
    | none => simp [create_preset_body, hc, hl, hv] at h
    | some v =>
      by_cases hvl : v.length = 0
      case neg =>
        exact ⟨assembled_params m pname tmpl,
          by simp [create_preset_body, hc, hl, hv, hvl, create_call_trace_nocheck _ _ hcm]⟩
      case pos =>
      cases ha : tmpl.Audio with
      | none => simp [create_preset_body, hc, hl, hv, hvl, ha] at h
      | some a =>
        by_cases hal : a.length = 0
        case neg =>
          exact ⟨assembled_params m pname tmpl,
            by simp [create_preset_body, hc, hl, hv, hvl, ha, hal,
              create_call_trace_nocheck _ _ hcm]⟩
        case pos =>
        cases ht : tmpl.Thumbnails with
        | none => simp [create_preset_body, hc, hl, hv, hvl, ha, hal, ht] at h
        | some t =>
          by_cases htl : t.length = 0
          case neg =>
            exact ⟨assembled_params m pname tmpl,
              by simp [create_preset_body, hc, hl, hv, hvl, ha, hal, ht, htl,
                create_call_trace_nocheck _ _ hcm]⟩
          case pos =>
            simp [create_preset_body, hc, hl, hv, hvl, ha, hal, ht, htl] at h

/-- The creation body never issues a delete call beyond those already in the
trace it is handed. -/
theorem no_delete_in_body {env : Env} {m : Params} {pname : String} {tr : List ApiCall}
    (htr : ∀ c ∈ tr, c = ApiCall.listPage) :
    ∀ i, ApiCall.deletePreset i ∉ (create_preset_body env m pname tr).1 := by
  intro i hmem
  rcases create_preset_body_trace env m pname tr with h | ⟨ps, h⟩
  · rw [h] at hmem
    have := htr _ hmem
    simp at this
  · rw [h] at hmem
    rcases List.mem_append.mp hmem with hm | hm
    · have := htr _ hm
      simp at this
    · simp at hm

/-- Reduction of `create_preset` when the preset exists and `recreate` is
false. -/
theorem create_preset_found_norecreate {env : Env} {m : Params} {i a : String}
    (hn : truthy m.name = true) (hr : m.recreate = false)
    (hf : (get_preset_id env.pages (m.name.getD "")).2 = some (i, a)) :
    create_preset env m = ((get_preset_id env.pages (m.name.getD "")).1,
      Outcome.ok { name := m.name.getD "", id := i, arn := a,
                   msg := "Preset already exists", changed := none }) := by
  unfold create_preset
  rw [if_pos hn, hf, hr]
  simp

/-- Reduction of `create_preset` when the preset exists, `recreate` is true
and the delete call succeeds: the run continues into the creation body with
the delete call recorded. -/
theorem create_preset_found_recreate {env : Env} {m : Params} {i a : String}
    (hn : truthy m.name = true) (hr : m.recreate = true)
    (hd : env.deleteReply = Except.ok ())
    (hf : (get_preset_id env.pages (m.name.getD "")).2 = some (i, a)) :
    create_preset env m = create_preset_body env m (m.name.getD "")
      ((get_preset_id env.pages (m.name.getD "")).1 ++ [ApiCall.deletePreset i]) := by
  unfold create_preset
  rw [if_pos hn, hf, hr]
  simp [delete_preset_by_id, hd]

/-- Reduction of `create_preset` when the preset exists, `recreate` is true
and the delete call fails: the module aborts after the failed delete call. -/
theorem create_preset_found_recreate_fail {env : Env} {m : Params} {i a e : String}
    (hn : truthy m.name = true) (hr : m.recreate = true)
    (hd : env.deleteReply = Except.error e)
    (hf : (get_preset_id env.pages (m.name.getD "")).2 = some (i, a)) :
    create_preset env m =
      ((get_preset_id env.pages (m.name.getD "")).1 ++ [ApiCall.deletePreset i],
       Outcome.failJson
         ("Failed to delete preset " ++ m.name.getD "" ++ "/" ++ i ++ ": " ++ e)) := by
  unfold create_preset
  rw [if_pos hn, hf, hr]
  simp [delete_preset_by_id, hd]

/-- Reduction of `create_preset` when no preset with the name exists: the run
goes straight into the creation body. -/
theorem create_preset_not_found {env : Env} {m : Params}
    (hn : truthy m.name = true)
    (hf : (get_preset_id env.pages (m.name.getD "")).2 = none) :
    create_preset env m = create_preset_body env m (m.name.getD "")
      (get_preset_id env.pages (m.name.getD "")).1 := by
  unfold create_preset
  rw [if_pos hn, hf]

/-- Reduction of `delete_preset` outside check mode when nothing matches. -/
theorem delete_preset_not_found {env : Env} {m : Params}
    (hn : truthy m.name = true) (hc : m.check_mode = false)
    (hf : (get_preset_id env.pages (m.name.getD "")).2 = none) :
    delete_preset env m = ((get_preset_id env.pages (m.name.getD "")).1,
      Outcome.ok { name := m.name.getD "", id := "", arn := "",
                   msg := "Preset not found", changed := some "false" }) := by
  unfold delete_preset
  rw [if_pos hn, hf, hc]
  simp

/-- Reduction of `delete_preset` outside check mode when a preset matches and
the delete call succeeds. -/
theorem delete_preset_found {env : Env} {m : Params} {i a : String}
    (hn : truthy m.name = true) (hc : m.check_mode = false)
    (hd : env.deleteReply = Except.ok ())
    (hf : (get_preset_id env.pages (m.name.getD "")).2 = some (i, a)) :
    delete_preset env m =
      ((get_preset_id env.pages (m.name.getD "")).1 ++ [ApiCall.deletePreset i],
       Outcome.ok { name := m.name.getD "", id := i, arn := a,
                    msg := "Preset deleted successfully", changed := some "true" }) := by
  unfold delete_preset
  rw [if_pos hn, hf, hc, hd]
  simp

/-- Reduction of `delete_preset` in check mode when a preset matches: no call
is issued but the deleted-successfully reporting is kept. -/
theorem delete_preset_check_found {env : Env} {m : Params} {i a : String}
    (hn : truthy m.name = true) (hcm : m.check_mode = true)
    (hf : (get_preset_id env.pages (m.name.getD "")).2 = some (i, a)) :
    delete_preset env m = ((get_preset_id env.pages (m.name.getD "")).1,
      Outcome.ok { name := m.name.getD "", id := i, arn := a,
                   msg := "Preset deleted successfully", changed := some "true" }) := by
  unfold delete_preset
  rw [if_pos hn, hf, hcm]
  simp

/-- Reduction of `delete_preset` in check mode when nothing matches: the
not-found reporting of lines 277-280 is skipped, so the result still claims a
successful deletion. -/
theorem delete_preset_check_not_found {env : Env} {m : Params}
    (hn : truthy m.name = true) (hcm : m.check_mode = true)
    (hf : (get_preset_id env.pages (m.name.getD "")).2 = none) :
    delete_preset env m = ((get_preset_id env.pages (m.name.getD "")).1,
      Outcome.ok { name := m.name.getD "", id := "", arn := "",
                   msg := "Preset deleted successfully", changed := some "true" }) := by
  unfold delete_preset
  rw [if_pos hn, hf, hcm]
  simp

/-- Reduction of `delete_preset` outside check mode when the delete call is
rejected by the service. -/
theorem delete_preset_found_fail {env : Env} {m : Params} {i a e : String}
    (hn : truthy m.name = true) (hcm : m.check_mode = false)
    (hd : env.deleteReply = Except.error e)
    (hf : (get_preset_id env.pages (m.name.getD "")).2 = some (i, a)) :
    delete_preset env m =
      ((get_preset_id env.pages (m.name.getD "")).1 ++ [ApiCall.deletePreset i],
       Outcome.failJson ("Failed to delete preset " ++ m.name.getD "" ++ ": " ++ e)) := by
  unfold delete_preset
  rw [if_pos hn, hf, hcm, hd]
  simp

/-- Delete-call count distributes over trace concatenation. -/
theorem countDeletes_append (l1 l2 : List ApiCall) :
    countDeletes (l1 ++ l2) = countDeletes l1 + countDeletes l2 := by
  simp [countDeletes, List.filter_append]

/-- Dispatch reduction: any state other than `absent` runs `create_preset`. -/
theorem invoke_present (env : Env) (m : Params) (hs : m.state = "present") :
    invoke env m = create_preset env m := by
  unfold invoke
  rw [if_neg (show ¬(m.state = "absent") by rw [hs]; decide)]

/-- Dispatch reduction: state `absent` runs `delete_preset`. -/
theorem invoke_absent (env : Env) (m : Params) (hs : m.state = "absent") :
    invoke env m = delete_preset env m := by
  unfold invoke
  rw [if_pos hs]

/-- C1: with state=present, the locator finding a preset of the given name and
recreate false, the reconciler makes no mutating call and returns success
reporting the existing preset's id, arn and name with msg
"Preset already exists"; the result carries no `changed` key, which
`exit_json` reports as changed = false. -/
theorem present_existing_idempotent (env : Env) (m : Params) (pid parn : String)
    (hs : m.state = "present") (hn : truthy m.name = true) (hr : m.recreate = false)
    (hf : (get_preset_id env.pages (m.name.getD "")).2 = some (pid, parn)) :
    (invoke env m).2 = Outcome.ok { name := m.name.getD "", id := pid, arn := parn,
                                    msg := "Preset already exists", changed := none } ∧
      (invoke env m).1.filter mutating = [] ∧
      exit_changed { name := m.name.getD "", id := pid, arn := parn,
                     msg := "Preset already exists", changed := none } = false := by
  rw [invoke_present env m hs, create_preset_found_norecreate hn hr hf]
  exact ⟨rfl, filter_all_listPage mutating rfl _ (get_preset_id_trace_all env.pages _), rfl⟩

/-- Concrete environment for the C1 witness: one catalog page holding the
preset the descriptor names. -/
def env1 : Env :=
  { pages := [{ Presets := some [{ Id := "id-1", Arn := "arn-1", Name := "p1" }],
                NextPageToken := none }],
    deleteReply := Except.ok (), createReply := Except.ok { Id := "x", Arn := "y", Name := "p1" },
    docRead := DocRead.noFile }

/-- Concrete descriptor for the C1 witness. -/
def m1 : Params :=
  { name := some "p1", description := none, container := some "mp4", state := "present",
    recreate := false, preset_document := none, check_mode := false }

/-- Witness instantiating C1 at a concrete catalog and descriptor. -/
theorem present_existing_idempotent_witness :
    m1.state = "present" ∧ truthy m1.name = true ∧ m1.recreate = false ∧
      (get_preset_id env1.pages (m1.name.getD "")).2 = some ("id-1", "arn-1") ∧
      ((invoke env1 m1).2 = Outcome.ok { name := "p1", id := "id-1", arn := "arn-1",
                                         msg := "Preset already exists", changed := none } ∧
        (invoke env1 m1).1.filter mutating = [] ∧
        exit_changed { name := "p1", id := "id-1", arn := "arn-1",
                       msg := "Preset already exists", changed := none } = false) :=
  ⟨rfl, by decide, rfl, by decide,
    present_existing_idempotent env1 m1 "id-1" "arn-1" rfl (by decide) rfl (by decide)⟩

/-- C5: the locator walks the pages in order, compares names for exact
equality, returns the id and arn of the first match, returns the
`(None, None)` sentinel when no page matches and no continuation token
remains, and performs no mutating call. -/
theorem locator_first_match (pages : List Page) (pname : String)
    (hw : wellPaginated pages = true) :
    (get_preset_id pages pname).2 = firstMatch pname pages ∧
      (∀ c ∈ (get_preset_id pages pname).1, c = ApiCall.listPage) ∧
      (get_preset_id pages pname).1.filter mutating = [] :=
  ⟨get_preset_id_eq_firstMatch pages pname hw, get_preset_id_trace_all pages pname,
    filter_all_listPage mutating rfl _ (get_preset_id_trace_all pages pname)⟩

/-- Concrete two-page catalog for the C5 witness, with a duplicate name on the
second page so the first-match policy is visible. -/
def pages5 : List Page :=
  [{ Presets := some [{ Id := "i1", Arn := "a1", Name := "alpha" }],
     NextPageToken := some "t1" },
   { Presets := some [{ Id := "i2", Arn := "a2", Name := "beta" },
                      { Id := "i3", Arn := "a3", Name := "beta" }],
     NextPageToken := none }]

/-- Witness instantiating C5 at a concrete paginated catalog. -/
theorem locator_first_match_witness :
    wellPaginated pages5 = true ∧
      (get_preset_id pages5 "beta").2 = firstMatch "beta" pages5 ∧
      (get_preset_id pages5 "beta").1.filter mutating = [] :=
  ⟨by decide, (locator_first_match pages5 "beta" (by decide)).1,
    (locator_first_match pages5 "beta" (by decide)).2.2⟩

/-- C10: with state=present, recreate=true and no matching preset, the
reconciler issues no delete call and behaves exactly as the recreate=false
invocation does. -/
theorem recreate_no_target (env : Env) (m : Params)
    (hs : m.state = "present") (hn : truthy m.name = true)
    (hf : (get_preset_id env.pages (m.name.getD "")).2 = none) :
    invoke env { m with recreate := true } = invoke env { m with recreate := false } ∧
      ∀ i, ApiCall.deletePreset i ∉ (invoke env { m with recreate := true }).1 := by
  obtain ⟨nm, de, co, st, re, doc, cm⟩ := m
  dsimp only at hs hn hf
  subst hs
  constructor
  · show invoke env ⟨nm, de, co, "present", true, doc, cm⟩ =
      invoke env ⟨nm, de, co, "present", false, doc, cm⟩
    rw [invoke_present env _ rfl, invoke_present env _ rfl,
        create_preset_not_found hn hf, create_preset_not_found hn hf]
    exact rfl
  · show ∀ i, ApiCall.deletePreset i ∉ (invoke env ⟨nm, de, co, "present", true, doc, cm⟩).1
    rw [invoke_present env _ rfl, create_preset_not_found hn hf]
    exact no_delete_in_body (get_preset_id_trace_all env.pages _)

/-- Concrete environment for the C10 witness: an empty catalog page and a
valid template so the create path is reachable. -/
def env10 : Env :=
  { pages := [{ Presets := some [], NextPageToken := none }],
    deleteReply := Except.ok (),
    createReply := Except.ok { Id := "id-10", Arn := "arn-10", Name := "p10" },
    docRead := DocRead.ok { Video := some ["codec"], Audio := none, Thumbnails := none } }

/-- Concrete descriptor for the C10 witness. -/
def m10 : Params :=
  { name := some "p10", description := none, container := some "mp4", state := "present",
    recreate := false, preset_document := some "doc.json", check_mode := false }

/-- C4: with state=absent outside check mode, a missing preset yields zero
delete calls, success, the not-found message and changed = false; and under
the module's name-uniqueness convention (all same-named entries share an id)
applying absent twice — the second run against the catalog as mutated by the
first run's calls — performs at most one delete call in total. -/
theorem absent_idempotent (env : Env) (m : Params)
    (hs : m.state = "absent") (hn : truthy m.name = true) (hc : m.check_mode = false)
    (hd : env.deleteReply = Except.ok ())
    (hu : ∀ q ∈ allPresets env.pages, ∀ p ∈ allPresets env.pages,
      q.Name = m.name.getD "" → p.Name = m.name.getD "" → q.Id = p.Id) :
    ((get_preset_id env.pages (m.name.getD "")).2 = none →
      (invoke env m).2 = Outcome.ok { name := m.name.getD "", id := "", arn := "",
                                      msg := "Preset not found", changed := some "false" } ∧
        countDeletes (invoke env m).1 = 0 ∧
        exit_changed { name := m.name.getD "", id := "", arn := "",
                       msg := "Preset not found", changed := some "false" } = false) ∧
      countDeletes (invoke env m).1 +
        countDeletes (invoke { env with pages := applyTrace env.pages (invoke env m).1 } m).1
        ≤ 1 := by
  have hlist : ∀ (pgs : List Page), countDeletes (get_preset_id pgs (m.name.getD "")).1 = 0 :=
    fun pgs => by
      unfold countDeletes
      rw [filter_all_listPage isDelete rfl _ (get_preset_id_trace_all pgs _)]
      rfl
  cases hf : (get_preset_id env.pages (m.name.getD "")).2 with
  | none =>
    have hrun : invoke env m = ((get_preset_id env.pages (m.name.getD "")).1,
        Outcome.ok { name := m.name.getD "", id := "", arn := "",
                     msg := "Preset not found", changed := some "false" }) := by
      rw [invoke_absent env m hs, delete_preset_not_found hn hc hf]
    have htr : applyTrace env.pages (invoke env m).1 = env.pages := by
      rw [hrun]
      exact applyTrace_all_listPage (get_preset_id_trace_all env.pages _)
    constructor
    · intro _
      rw [hrun]
      exact ⟨rfl, hlist env.pages, rfl⟩
    · rw [htr]
      have henv : ({ env with pages := env.pages } : Env) = env := rfl
      rw [henv, hrun]
      simp [hlist env.pages]
  | some ia =>
    obtain ⟨i, a⟩ := ia
    have hrun : invoke env m =
        ((get_preset_id env.pages (m.name.getD "")).1 ++ [ApiCall.deletePreset i],
         Outcome.ok { name := m.name.getD "", id := i, arn := a,
                      msg := "Preset deleted successfully", changed := some "true" }) := by
      rw [invoke_absent env m hs, delete_preset_found hn hc hd hf]
    have h1 : countDeletes (invoke env m).1 = 1 := by
      rw [hrun]
      show countDeletes ((get_preset_id env.pages (m.name.getD "")).1 ++
        [ApiCall.deletePreset i]) = 1
      rw [countDeletes_append, hlist env.pages]
      rfl
    have htr : applyTrace env.pages (invoke env m).1 = deleteFromPages env.pages i := by
      rw [hrun]
      show applyTrace env.pages ((get_preset_id env.pages (m.name.getD "")).1 ++
        [ApiCall.deletePreset i]) = deleteFromPages env.pages i
      unfold applyTrace
      rw [List.foldl_append,
        show List.foldl applyCall env.pages (get_preset_id env.pages (m.name.getD "")).1 =
          env.pages from applyTrace_all_listPage (get_preset_id_trace_all env.pages _)]
      rfl
    have hnomatch : ∀ q ∈ allPresets (deleteFromPages env.pages i),
        ¬(q.Name = m.name.getD "") := by
      intro q hq hqn
      rw [allPresets_deleteFromPages] at hq
      have hq' := List.mem_filter.mp hq
      obtain ⟨q0, hq0, hq0n, hq0i, _⟩ := get_preset_id_some_mem hf
      have hqq0 : q.Id = q0.Id := hu q hq'.1 q0 hq0 hqn hq0n
      rw [hq0i] at hqq0
      have hne := hq'.2
      rw [hqq0] at hne
      simp at hne
    have hf2 : (get_preset_id (deleteFromPages env.pages i) (m.name.getD "")).2 = none :=
      get_preset_id_none_of_no_match hnomatch
    constructor
    · intro h0
      simp at h0
    · rw [htr, invoke_absent { env with pages := deleteFromPages env.pages i } m hs,
        delete_preset_not_found hn hc hf2, h1]
      have h2 : countDeletes (get_preset_id (deleteFromPages env.pages i)
          (m.name.getD "")).1 = 0 := hlist _
      simp [h2]

/-- Concrete environment for the C4 witness: one catalog page with the single
preset the descriptor names. -/
def env4 : Env :=
  { pages := [{ Presets := some [{ Id := "id-4", Arn := "arn-4", Name := "p4" }],
                NextPageToken := none }],
    deleteReply := Except.ok (), createReply := Except.ok { Id := "x", Arn := "y", Name := "p4" },
    docRead := DocRead.noFile }

/-- Concrete descriptor for the C4 witness. -/
def m4 : Params :=
  { name := some "p4", description := none, container := none, state := "absent",
    recreate := false, preset_document := none, check_mode := false }

/-- Witness instantiating C4 at a concrete catalog and descriptor. -/
theorem absent_idempotent_witness :
    countDeletes (invoke env4 m4).1 +
      countDeletes (invoke { env4 with pages := applyTrace env4.pages (invoke env4 m4).1 } m4).1
      ≤ 1 :=
  (absent_idempotent env4 m4 rfl (by decide) rfl rfl (by decide)).2

/-- Witness instantiating C10 at a concrete catalog and descriptor. -/
theorem recreate_no_target_witness :
    m10.state = "present" ∧ truthy m10.name = true ∧
      (get_preset_id env10.pages (m10.name.getD "")).2 = none ∧
      invoke env10 { m10 with recreate := true } = invoke env10 { m10 with recreate := false } ∧
      ApiCall.deletePreset "id-10" ∉ (invoke env10 { m10 with recreate := true }).1 :=
  ⟨rfl, by decide, by decide,
    (recreate_no_target env10 m10 rfl (by decide) (by decide)).1,
    (recreate_no_target env10 m10 rfl (by decide) (by decide)).2 "id-10"⟩

/-- Shape of the mutating calls an invocation may perform: none, a single
delete, a single create, or a delete strictly followed by a create — never
interleaved, repeated, or out of order. -/
def MutShape (tr : List ApiCall) : Prop :=
  tr.filter mutating = [] ∨ (∃ i, tr.filter mutating = [ApiCall.deletePreset i]) ∨
    (∃ ps, tr.filter mutating = [ApiCall.createPreset ps]) ∨
    (∃ i ps, tr.filter mutating = [ApiCall.deletePreset i, ApiCall.createPreset ps])

/-- C9 (amended): every invocation's mutating calls are at most one delete
followed by at most one create, strictly in that order; the recreate path
against an existing preset performs the full delete-then-create pair exactly
when it is outside check mode and returns successfully — otherwise only the
delete has been issued. -/
theorem mutating_call_discipline (env : Env) (m : Params) :
    MutShape (invoke env m).1 ∧
      (m.state = "present" → m.recreate = true → m.check_mode = false →
        ∀ i a r, (get_preset_id env.pages (m.name.getD "")).2 = some (i, a) →
          (invoke env m).2 = Outcome.ok r →
          ∃ ps, (invoke env m).1.filter mutating =
            [ApiCall.deletePreset i, ApiCall.createPreset ps]) := by
  have hA : ∀ (pgs : List Page) (pn : String),
      ((get_preset_id pgs pn).1).filter mutating = [] :=
    fun pgs pn => filter_all_listPage mutating rfl _ (get_preset_id_trace_all pgs pn)
  have hAD : ∀ (pgs : List Page) (pn i : String),
      ((get_preset_id pgs pn).1 ++ [ApiCall.deletePreset i]).filter mutating
        = [ApiCall.deletePreset i] := fun pgs pn i => by
    rw [List.filter_append, hA]
    rfl
  constructor
  · by_cases hst : m.state = "absent"
    · rw [invoke_absent env m hst]
      by_cases hn : truthy m.name = true
      case neg =>
        unfold delete_preset
        rw [if_neg hn]
        exact Or.inl rfl
      case pos =>
        cases hf : (get_preset_id env.pages (m.name.getD "")).2 with
        | none =>
          cases hcm : m.check_mode with
          | true =>
            rw [delete_preset_check_not_found hn hcm hf]
            exact Or.inl (hA env.pages _)
          | false =>
            rw [delete_preset_not_found hn hcm hf]
            exact Or.inl (hA env.pages _)
        | some ia =>
          obtain ⟨i, a⟩ := ia
          cases hcm : m.check_mode with
          | true =>
            rw [delete_preset_check_found hn hcm hf]
            exact Or.inl (hA env.pages _)
          | false =>
            cases hd : env.deleteReply with
            | ok u =>
              cases u
              rw [delete_preset_found hn hcm hd hf]
              exact Or.inr (Or.inl ⟨i, hAD env.pages _ i⟩)
            | error e =>
              rw [delete_preset_found_fail hn hcm hd hf]
              exact Or.inr (Or.inl ⟨i, hAD env.pages _ i⟩)
    · have hinv : invoke env m = create_preset env m := by
        unfold invoke
        rw [if_neg hst]
      rw [hinv]
      by_cases hn : truthy m.name = true
      case neg =>
        unfold create_preset
        rw [if_neg hn]
        exact Or.inl rfl
      case pos =>
        cases hf : (get_preset_id env.pages (m.name.getD "")).2 with
        | none =>
          rw [create_preset_not_found hn hf]
          rcases create_preset_body_trace env m (m.name.getD "")
              (get_preset_id env.pages (m.name.getD "")).1 with h | ⟨ps, h⟩
          · rw [h]
            exact Or.inl (hA env.pages _)
          · rw [h]
            refine Or.inr (Or.inr (Or.inl ⟨ps, ?_⟩))
            rw [List.filter_append, hA env.pages _]
            rfl
        | some ia =>
          obtain ⟨i, a⟩ := ia
          cases hr : m.recreate with
          | false =>
            rw [create_preset_found_norecreate hn hr hf]
            exact Or.inl (hA env.pages _)
          | true =>
            cases hd : env.deleteReply with
            | error e =>
              rw [create_preset_found_recreate_fail hn hr hd hf]
              exact Or.inr (Or.inl ⟨i, hAD env.pages _ i⟩)
            | ok u =>
              cases u
              rw [create_preset_found_recreate hn hr hd hf]
              rcases create_preset_body_trace env m (m.name.getD "")
                  ((get_preset_id env.pages (m.name.getD "")).1 ++ [ApiCall.deletePreset i])
                with h | ⟨ps, h⟩
              · rw [h]
                exact Or.inr (Or.inl ⟨i, hAD env.pages _ i⟩)
              · rw [h]
                refine Or.inr (Or.inr (Or.inr ⟨i, ps, ?_⟩))
                rw [List.filter_append, hAD env.pages _ i]
                rfl
  · intro hs hr hcm i a r hf hok
    by_cases hn : truthy m.name = true
    case neg =>
      rw [invoke_present env m hs] at hok
      unfold create_preset at hok
      rw [if_neg hn] at hok
      simp at hok
    case pos =>
      cases hd : env.deleteReply with
      | error e =>
        rw [invoke_present env m hs, create_preset_found_recreate_fail hn hr hd hf] at hok
        simp at hok
      | ok u =>
        cases u
        rw [invoke_present env m hs, create_preset_found_recreate hn hr hd hf] at hok ⊢
        obtain ⟨ps, hps⟩ := create_preset_body_ok_trace hcm hok
        refine ⟨ps, ?_⟩
        rw [hps, List.filter_append, hAD env.pages _ i]
        rfl

/-- Concrete environment for the C9 counterexample: the named preset exists
and the template path is missing. -/
def env9c : Env :=
  { pages := [{ Presets := some [{ Id := "id-9", Arn := "arn-9", Name := "p9" }],
                NextPageToken := none }],
    deleteReply := Except.ok (), createReply := Except.ok { Id := "x", Arn := "y", Name := "p9" },
    docRead := DocRead.noFile }

/-- Concrete descriptor for the C9 counterexample: recreate against the
existing preset with a dangling template path. -/
def m9c : Params :=
  { name := some "p9", description := none, container := some "mp4", state := "present",
    recreate := true, preset_document := some "missing.json", check_mode := false }

/-- Counterexample to C9 as stated: a present invocation with recreate=true
against an existing preset whose template path does not resolve performs the
delete but never reaches the create, so the claimed delete-then-create pair
does not happen. -/
theorem recreate_pair_counterexample :
    m9c.state = "present" ∧ m9c.recreate = true ∧
      (get_preset_id env9c.pages (m9c.name.getD "")).2 = some ("id-9", "arn-9") ∧
      (invoke env9c m9c).1.filter mutating = [ApiCall.deletePreset "id-9"] ∧
      (invoke env9c m9c).2 =
        Outcome.failJson "Wrong path for preset_document: missing.json" := by
  refine ⟨rfl, rfl, by decide, by decide, by decide⟩

/-- Concrete environment for the C9 witness: the named preset exists, the
template parses with a non-empty Video block and the service accepts the
create call. -/
def env9w : Env :=
  { pages := [{ Presets := some [{ Id := "id-9w", Arn := "arn-9w", Name := "p9w" }],
                NextPageToken := none }],
    deleteReply := Except.ok (),
    createReply := Except.ok { Id := "cid", Arn := "carn", Name := "cn" },
    docRead := DocRead.ok { Video := some ["h264"], Audio := none, Thumbnails := none } }

/-- Concrete descriptor for the C9 witness. -/
def m9w : Params :=
  { name := some "p9w", description := none, container := some "mp4", state := "present",
    recreate := true, preset_document := some "doc.json", check_mode := false }

/-- Witness instantiating the amended C9 at a concrete input on which the
full delete-then-create pair fires. -/
theorem mutating_call_discipline_witness :
    MutShape (invoke env9w m9w).1 ∧ (invoke env9w m9w).1.filter mutating ≠ [] := by
  refine ⟨(mutating_call_discipline env9w m9w).1, ?_⟩
  obtain ⟨ps, h⟩ := (mutating_call_discipline env9w m9w).2 rfl rfl rfl "id-9w" "arn-9w"
    { name := "cn", id := "cid", arn := "carn", msg := "Preset created successfully",
      changed := some "true" } (by decide) (by decide)
  rw [h]
  simp

/-- Concrete environment for C2: empty catalog, no document involved. -/
def env2c : Env :=
  { pages := [{ Presets := some [], NextPageToken := none }],
    deleteReply := Except.ok (), createReply := Except.ok { Id := "x", Arn := "y", Name := "p2" },
    docRead := DocRead.noFile }

/-- Concrete descriptor for C2: state=present with no preset_document, so all
three encoding blocks are absent. -/
def m2c : Params :=
  { name := some "p2", description := none, container := some "mp4", state := "present",
    recreate := false, preset_document := none, check_mode := false }

/-- C2 (code bug): with no preset_document (all three blocks absent) the run
does abort before any create call, but by raising an uncaught `KeyError` at
`len(params['Video'])` rather than failing with the validation message of
lines 228-231. -/
theorem empty_spec_keyerror :
    invoke env2c m2c = ([ApiCall.listPage], Outcome.crash "KeyError: Video") ∧
      (invoke env2c m2c).1.filter mutating = [] := by
  refine ⟨by decide, by decide⟩

/-- Concrete environment for C3: the document parses but only contains an
empty Video block; Audio and Thumbnails keys are absent. -/
def env3c : Env :=
  { pages := [{ Presets := some [], NextPageToken := none }],
    deleteReply := Except.ok (), createReply := Except.ok { Id := "x", Arn := "y", Name := "p3" },
    docRead := DocRead.ok { Video := some [], Audio := none, Thumbnails := none } }

/-- Concrete descriptor for C3. -/
def m3c : Params :=
  { name := some "p3", description := none, container := some "mp4", state := "present",
    recreate := false, preset_document := some "t.json", check_mode := false }

/-- C3 (code bug): the extraction does not default absent blocks to empty —
with Video present but empty and Audio absent, evaluating
`len(params['Audio'])` raises an uncaught `KeyError`, so the validation is
not total. -/
theorem missing_block_keyerror :
    invoke env3c m3c = ([ApiCall.listPage], Outcome.crash "KeyError: Audio") ∧
      (invoke env3c m3c).1.filter mutating = [] := by
  refine ⟨by decide, by decide⟩

/-- Concrete environment for C6: the named preset exists. -/
def env6c : Env :=
  { pages := [{ Presets := some [{ Id := "id-6", Arn := "arn-6", Name := "p6" }],
                NextPageToken := none }],
    deleteReply := Except.ok (), createReply := Except.ok { Id := "x", Arn := "y", Name := "p6" },
    docRead := DocRead.noFile }

/-- Concrete descriptor for C6: recreate with the container missing. -/
def m6c : Params :=
  { name := some "p6", description := none, container := none, state := "present",
    recreate := true, preset_document := none, check_mode := false }

/-- C6 (code bug): with the container missing and recreate=true against an
existing preset, the module locates the preset and deletes it before failing
on the missing container — the validation failure is neither before the
lookup nor before the mutating delete. -/
theorem container_check_after_delete :
    invoke env6c m6c = ([ApiCall.listPage, ApiCall.deletePreset "id-6"],
      Outcome.failJson "Missing required argument: container") := by
  decide

/-- Concrete environment for C7: the document file exists but its content is
malformed. -/
def env7c : Env :=
  { pages := [{ Presets := some [], NextPageToken := none }],
    deleteReply := Except.ok (), createReply := Except.ok { Id := "x", Arn := "y", Name := "p7" },
    docRead := DocRead.badJson "No JSON object could be decoded" }

/-- Concrete descriptor for C7. -/
def m7c : Params :=
  { name := some "p7", description := none, container := some "mp4", state := "present",
    recreate := false, preset_document := some "bad.json", check_mode := false }

/-- C7 (code bug): malformed document content raises a `ValueError` that the
`except IOError` clause does not catch, so the run aborts with an uncaught
exception instead of the explicit `fail_json` message; no remote create call
is issued. -/
theorem malformed_document_uncaught :
    invoke env7c m7c =
      ([ApiCall.listPage], Outcome.crash "ValueError: No JSON object could be decoded") ∧
      (invoke env7c m7c).1.filter mutating = [] := by
  refine ⟨by decide, by decide⟩

/-- Concrete environment for C8: empty catalog. -/
def env8c : Env :=
  { pages := [{ Presets := some [], NextPageToken := none }],
    deleteReply := Except.ok (), createReply := Except.ok { Id := "x", Arn := "y", Name := "g" },
    docRead := DocRead.noFile }

/-- Concrete descriptor for C8: state=absent in check mode against a name
with no match. -/
def m8c : Params :=
  { name := some "ghost", description := none, container := none, state := "absent",
    recreate := false, preset_document := none, check_mode := true }

/-- C8 (code bug): in check mode no delete call is made, but when nothing
matches the module still reports "Preset deleted successfully" with
changed = true, because the not-found reporting of lines 277-280 is wrongly
guarded by `if not module.check_mode`. -/
theorem check_mode_absent_misreport :
    (invoke env8c m8c).1.filter mutating = [] ∧
      (invoke env8c m8c).2 = Outcome.ok { name := "ghost", id := "", arn := "",
                                          msg := "Preset deleted successfully",
                                          changed := some "true" } ∧
      exit_changed { name := "ghost", id := "", arn := "",
                     msg := "Preset deleted successfully", changed := some "true" } = true := by
  refine ⟨by decide, by decide, by decide⟩

end TranscoderPreset
